import Mathlib

/-!
# Verification of the connectivity-provisioning core (src/main/board.c, src/main/main.c)

Shallow embedding of the credential store (`board_wifi_save_config`,
`board_wifi_has_valid_config`), the station reconnect state machine
(`wifi_sta_event_handler`, `board_wifi_sta_wait_connected`), the captive-portal
DNS responder (`dns_server_task`), the provisioning HTTP `set-wifi` handler
(`http_server_set_wifi_config_handler`), and the WebSocket session manager's
first-connection bookkeeping (`websocket_event_handler`,
`reset_connection_timer_cb`).

Strings that cross the C API boundary are modelled as byte lists (`List Nat`),
with C-string semantics (terminated at the first 0 byte) made explicit where
the source relies on it.  ESP-IDF library calls are modelled by their
documented contracts; in particular `nvs_get_str` with a NULL output buffer
reports the stored string's size *including* its NUL terminator.
-/

/-- ESP-IDF error codes used by the modelled functions. -/
inductive EspErr where
  | ok
  | fail
  | invalidArg
  | invalidState
  | timeout
deriving DecidableEq, Repr

/-- The NVS namespace `wifi_config` as used by the credential store: the only
keys ever read or written are `ssid` and `password`; each holds a
NUL-terminated string, modelled as a byte list without the terminator. -/
structure NvsStore where
  ssid : Option (List Nat)
  password : Option (List Nat)
deriving DecidableEq, Repr

/-- Result of `board_wifi_save_config`: the returned `esp_err_t`, the store
after the call, and whether `WIFI_CONFIG_SAVED_BIT` was set on
`board_event_group`. -/
structure SaveResult where
  err : EspErr
  store : NvsStore
  configSavedBit : Bool
deriving DecidableEq, Repr

/-- `board_wifi_save_config` (board.c:927-980).  Rejects an empty or >32-byte
ssid and a >64-byte password with `ESP_ERR_INVALID_ARG` before opening NVS;
otherwise writes both keys, commits, and sets `WIFI_CONFIG_SAVED_BIT`.  The
NVS open/set/commit calls are modelled on their success path (flash failures
are environment faults outside the embedding). -/
def board_wifi_save_config (st : NvsStore) (s p : List Nat) : SaveResult :=
  if s.length = 0 ∨ s.length > 32 then ⟨EspErr.invalidArg, st, false⟩
  else if p.length > 64 then ⟨EspErr.invalidArg, st, false⟩
  else ⟨EspErr.ok, ⟨some s, some p⟩, true⟩

/-- Documented contract of ESP-IDF `nvs_get_str(handle, key, NULL, &len)`:
when the key exists, `len` receives the stored string's size including the
NUL terminator. -/
def nvs_get_str_len (v : List Nat) : Nat := v.length + 1

/-- `board_wifi_has_valid_config` (board.c:870-922).  Probes the stored length
of each key and rejects when the `ssid` key is missing, its reported size is
0 or >32, the `password` key is missing, or its reported size is >64;
otherwise reads and returns both values.  Returns `some (ssid, password)`
exactly when the C function returns `true`. -/
def board_wifi_has_valid_config (st : NvsStore) : Option (List Nat × List Nat) :=
  match st.ssid with
  | none => none
  | some s =>
    if nvs_get_str_len s = 0 ∨ nvs_get_str_len s > 32 then none
    else
      match st.password with
      | none => none
      | some p =>
        if nvs_get_str_len p > 64 then none
        else some (s, p)

/-- C1: the round-trip claim fails at the upper boundary.  Saving a 32-byte
network name with an empty secret succeeds (`board_wifi_save_config` validates
`strlen(ssid) <= 32`), but the subsequent `board_wifi_has_valid_config` probes
the stored size via `nvs_get_str`, which reports 32 + 1 = 33 for the NUL
terminator, and the check `ssid_len > 32` rejects it — the query returns
false instead of yielding the saved pair.  The same off-by-one rejects a
saved 64-byte secret via `pass_len > 64`. -/
theorem C1_roundtrip_boundary_eval :
    (board_wifi_save_config ⟨none, none⟩ (List.replicate 32 97) []).err = EspErr.ok ∧
    (board_wifi_save_config ⟨none, none⟩ (List.replicate 32 97) []).store =
      ⟨some (List.replicate 32 97), some []⟩ ∧
    board_wifi_has_valid_config ⟨some (List.replicate 32 97), some []⟩ = none ∧
    (board_wifi_save_config ⟨none, none⟩ [97] (List.replicate 64 98)).err = EspErr.ok ∧
    board_wifi_has_valid_config ⟨some [97], some (List.replicate 64 98)⟩ = none := by
  decide

/-- C2: for every credential pair whose network name is empty or longer than
32 bytes, or whose secret is longer than 64 bytes, `board_wifi_save_config`
fails with `ESP_ERR_INVALID_ARG`, leaves the persisted store exactly as it
was, and does not raise the config-saved event bit. -/
theorem C2_save_rejects_invalid (st : NvsStore) (s p : List Nat)
    (h : s.length = 0 ∨ s.length > 32 ∨ p.length > 64) :
    (board_wifi_save_config st s p).err = EspErr.invalidArg ∧
    (board_wifi_save_config st s p).store = st ∧
    (board_wifi_save_config st s p).configSavedBit = false := by
  rcases h with h | h | h
  · simp [board_wifi_save_config, List.length_eq_zero.mp h]
  · simp [board_wifi_save_config, h]
  · by_cases hs : s = [] ∨ 32 < s.length
    · simp [board_wifi_save_config, hs]
    · simp [board_wifi_save_config, hs, h]

/-- Witness for C2 at a concrete input: saving a 33-byte network name into a
non-empty store fails with `ESP_ERR_INVALID_ARG` and leaves the store intact. -/
theorem C2_save_rejects_invalid_witness :
    ((List.replicate 33 97 : List Nat).length = 0 ∨
      (List.replicate 33 97 : List Nat).length > 32 ∨ ([] : List Nat).length > 64) ∧
    ((board_wifi_save_config ⟨some [120], some [121]⟩ (List.replicate 33 97) []).err =
        EspErr.invalidArg ∧
      (board_wifi_save_config ⟨some [120], some [121]⟩ (List.replicate 33 97) []).store =
        ⟨some [120], some [121]⟩ ∧
      (board_wifi_save_config ⟨some [120], some [121]⟩ (List.replicate 33 97) []).configSavedBit =
        false) :=
  ⟨by decide, C2_save_rejects_invalid ⟨some [120], some [121]⟩ (List.replicate 33 97) []
    (by decide)⟩

/-! ## Station connection manager (board.c:600-816) -/

/-- `BOARD_WIFI_MAX_RETRY` (board.h:111). -/
def BOARD_WIFI_MAX_RETRY : Nat := 5

/-- State touched by `wifi_sta_event_handler`: the retry counter
`s_wifi_retry_num`, the `WIFI_CONNECTED_BIT`/`WIFI_FAIL_BIT` bits of the
private `s_wifi_event_group`, and the same two bits mirrored on the global
`board_event_group`. -/
structure WifiStaState where
  retryNum : Nat
  connectedBit : Bool
  failBit : Bool
  boardConnectedBit : Bool
  boardFailBit : Bool
deriving DecidableEq, Repr

/-- State right after `board_wifi_sta_init` creates the event group (all bits
clear) and before any event is delivered (`s_wifi_retry_num` is 0 at load). -/
def initWifiStaState : WifiStaState := ⟨0, false, false, false, false⟩

/-- Events delivered to `wifi_sta_event_handler`. -/
inductive WifiEvent where
  | staStart
  | staConnected
  | disconnected
  | gotIp
  | lostIp
deriving DecidableEq, Repr

/-- Externally visible action of one handler invocation. -/
inductive WifiAction where
  | connectFirst
  | retryConnect (delayMs : Nat)
  | declareFail
  | logOnly
deriving DecidableEq, Repr

/-- Back-off delay before retry number `k`:
`vTaskDelay(pdMS_TO_TICKS(500 * (1 << s_wifi_retry_num)))` (board.c:643). -/
def staRetryDelayMs (k : Nat) : Nat := 500 * 2 ^ k

/-- One invocation of `wifi_sta_event_handler` (board.c:600-667). -/
def wifi_sta_event_handler (s : WifiStaState) : WifiEvent → WifiStaState × WifiAction
  | WifiEvent.staStart => ({ s with retryNum := 0 }, WifiAction.connectFirst)
  | WifiEvent.staConnected => (s, WifiAction.logOnly)
  | WifiEvent.disconnected =>
      if s.retryNum < BOARD_WIFI_MAX_RETRY then
        ({ s with retryNum := s.retryNum + 1 },
          WifiAction.retryConnect (staRetryDelayMs s.retryNum))
      else
        ({ s with failBit := true, boardFailBit := true }, WifiAction.declareFail)
  | WifiEvent.gotIp =>
      ({ s with retryNum := 0, connectedBit := true, boardConnectedBit := true },
        WifiAction.logOnly)
  | WifiEvent.lostIp => (s, WifiAction.logOnly)

/-- Run a sequence of events through the handler, collecting the actions. -/
def wifiRun (s : WifiStaState) : List WifiEvent → WifiStaState × List WifiAction
  | [] => (s, [])
  | e :: es =>
      let step := wifi_sta_event_handler s e
      let rest := wifiRun step.1 es
      (rest.1, step.2 :: rest.2)

/-- Outcome of `board_wifi_sta_wait_connected` (board.c:789-816) given the
bits of `s_wifi_event_group` at the time the wait returns:
`WIFI_CONNECTED_BIT` is checked first, then `WIFI_FAIL_BIT`, else timeout. -/
inductive WaitOutcome where
  | connected
  | failed
  | timedOut
deriving DecidableEq, Repr

/-- `board_wifi_sta_wait_connected`, modelled on a quiescent event group. -/
def board_wifi_sta_wait_connected (s : WifiStaState) : WaitOutcome :=
  if s.connectedBit then WaitOutcome.connected
  else if s.failBit then WaitOutcome.failed
  else WaitOutcome.timedOut

/-- `true` on the actions that invoke `esp_wifi_connect()`. -/
def WifiAction.isConnectAttempt : WifiAction → Bool
  | WifiAction.connectFirst => true
  | WifiAction.retryConnect _ => true
  | _ => false

/-- C3 counterexample: after `WIFI_EVENT_STA_START` and exactly
`BOARD_WIFI_MAX_RETRY` = 5 consecutive disconnect events with no IP
acquisition, `WIFI_FAIL_BIT` is still clear — the 5th disconnect issued yet
another reconnect attempt (with an 8000 ms back-off) — so
`board_wifi_sta_wait_connected` would time out rather than return Failed. -/
theorem C3_exactly_N_disconnects_not_failed :
    (wifiRun initWifiStaState
        (WifiEvent.staStart :: List.replicate BOARD_WIFI_MAX_RETRY WifiEvent.disconnected)).1.failBit
        = false ∧
    board_wifi_sta_wait_connected
        (wifiRun initWifiStaState
          (WifiEvent.staStart :: List.replicate BOARD_WIFI_MAX_RETRY WifiEvent.disconnected)).1
        = WaitOutcome.timedOut ∧
    (wifiRun initWifiStaState
        (WifiEvent.staStart :: List.replicate BOARD_WIFI_MAX_RETRY WifiEvent.disconnected)).2
        = [WifiAction.connectFirst, WifiAction.retryConnect 500, WifiAction.retryConnect 1000,
           WifiAction.retryConnect 2000, WifiAction.retryConnect 4000,
           WifiAction.retryConnect 8000] := by
  decide

/-- In the absorbing failure state (retry counter saturated, fail bits set),
every further disconnect event only re-asserts the fail bits and never calls
`esp_wifi_connect()`. -/
lemma wifiRun_failed_state_absorbs (k : Nat) :
    wifiRun ⟨BOARD_WIFI_MAX_RETRY, false, true, false, true⟩
        (List.replicate k WifiEvent.disconnected) =
      (⟨BOARD_WIFI_MAX_RETRY, false, true, false, true⟩,
        List.replicate k WifiAction.declareFail) := by
  induction k with
  | zero => rfl
  | succ n ih =>
      simp [List.replicate_succ, wifiRun, wifi_sta_event_handler, ih]

/-- C3 (amended): the WifiFailed bit is set on the (N+1)-th consecutive
disconnect event (N = `BOARD_WIFI_MAX_RETRY`): the first N disconnects each
trigger an automatic reconnect, and the (N+1)-th finds the retry counter
saturated, sets `WIFI_FAIL_BIT` so `board_wifi_sta_wait_connected` returns
Failed, and from then on no disconnect event issues a reconnect attempt; a
renewed `init()` (its `WIFI_EVENT_STA_START`) resets the retry counter and
connects again. -/
theorem C3_amended_fail_after_N_plus_1 (k : Nat) :
    (wifiRun initWifiStaState
        (WifiEvent.staStart ::
          List.replicate (BOARD_WIFI_MAX_RETRY + 1) WifiEvent.disconnected)).1 =
      ⟨BOARD_WIFI_MAX_RETRY, false, true, false, true⟩ ∧
    board_wifi_sta_wait_connected ⟨BOARD_WIFI_MAX_RETRY, false, true, false, true⟩ =
      WaitOutcome.failed ∧
    wifiRun ⟨BOARD_WIFI_MAX_RETRY, false, true, false, true⟩
        (List.replicate k WifiEvent.disconnected) =
      (⟨BOARD_WIFI_MAX_RETRY, false, true, false, true⟩,
        List.replicate k WifiAction.declareFail) ∧
    ((List.replicate k WifiAction.declareFail).all fun a => !a.isConnectAttempt) = true ∧
    wifi_sta_event_handler ⟨BOARD_WIFI_MAX_RETRY, false, true, false, true⟩
        WifiEvent.staStart =
      (⟨0, false, true, false, true⟩, WifiAction.connectFirst) := by
  refine ⟨by decide, by decide, wifiRun_failed_state_absorbs k, ?_, by decide⟩
  simp [List.all_eq_true, WifiAction.isConnectAttempt]

/-- C9: the delay inserted before automatic reconnect attempt `k` starts at
the 500 ms base, doubles on each successive retry, and for every retry index
below `BOARD_WIFI_MAX_RETRY` never exceeds the 8000 ms cap reached at the
last retry. -/
theorem C9_backoff_doubles_and_capped :
    staRetryDelayMs 0 = 500 ∧
    (∀ k : Nat, staRetryDelayMs (k + 1) = 2 * staRetryDelayMs k) ∧
    (∀ s : WifiStaState, s.retryNum < BOARD_WIFI_MAX_RETRY →
      (wifi_sta_event_handler s WifiEvent.disconnected).2 =
        WifiAction.retryConnect (staRetryDelayMs s.retryNum) ∧
      staRetryDelayMs s.retryNum ≤ 8000) := by
  refine ⟨rfl, fun k => by simp [staRetryDelayMs, pow_succ]; ring, fun s hs => ⟨?_, ?_⟩⟩
  · simp [wifi_sta_event_handler, hs]
  · have hs' : s.retryNum < 5 := hs
    have h2 : (2 : Nat) ^ s.retryNum ≤ 2 ^ 4 :=
      Nat.pow_le_pow_right (by norm_num) (by omega)
    calc staRetryDelayMs s.retryNum = 500 * 2 ^ s.retryNum := rfl
      _ ≤ 500 * 2 ^ 4 := Nat.mul_le_mul_left _ h2
      _ = 8000 := by norm_num

/-- Witness for C9 at the last retry index: a state with retry counter 4 is
below the maximum, the handler answers with a `retryConnect 8000` action, and
8000 ms is within the cap. -/
theorem C9_backoff_witness :
    (⟨4, false, false, false, false⟩ : WifiStaState).retryNum < BOARD_WIFI_MAX_RETRY ∧
    ((wifi_sta_event_handler ⟨4, false, false, false, false⟩ WifiEvent.disconnected).2 =
        WifiAction.retryConnect (staRetryDelayMs 4) ∧
      staRetryDelayMs 4 ≤ 8000) :=
  ⟨by decide, C9_backoff_doubles_and_capped.2.2 ⟨4, false, false, false, false⟩ (by decide)⟩

/-! ## Captive-portal DNS responder (board.c:1289-1441) -/

/-- Number of request bytes `recvfrom` can deliver: `rx_buffer` is 128 bytes,
so a longer datagram is truncated to 128. -/
def dnsRecvLen (d : List Nat) : Nat := min d.length 128

/-- The receive buffer after `recvfrom`: the datagram truncated to 128 bytes;
reads beyond the received length see the `memset` zero fill, which the model
realises through `List.getD _ _ 0` defaults. -/
def dnsBuf (d : List Nat) : List Nat := d.take 128

/-- The question-skipping loop (board.c:1364-1367): starting at offset 12,
repeatedly skip `rx_buffer[question_end] + 1` bytes while the offset is in
range and the label length byte is non-zero.  One unit of fuel per loop entry;
each entry needs `qe < len` and advances `qe` by at least 1, so `len` fuel is
never exhausted before the loop's own exit condition. -/
def questionEndLoop (buf : List Nat) (len : Nat) : Nat → Nat → Nat
  | qe, 0 => qe
  | qe, fuel + 1 =>
      if qe < len ∧ buf.getD qe 0 ≠ 0 then
        questionEndLoop buf len (qe + buf.getD qe 0 + 1) fuel
      else qe

/-- `question_end` as computed for a received datagram: the loop result plus 5
(the terminating zero byte, then 2 bytes of type and 2 of class,
board.c:1369). -/
def dnsQuestionEnd (d : List Nat) : Nat :=
  questionEndLoop (dnsBuf d) (dnsRecvLen d) 12 (dnsRecvLen d) + 5

/-- The fixed 16-byte tail appended as the single answer record: compression
pointer `0xC0 0x0C`, type A, class IN, TTL 10, data length 4 (board.c:1404-1423). -/
def dnsAnswerFixed : List Nat := [0xC0, 0x0C, 0, 1, 0, 1, 0, 0, 0, 10, 0, 4]

/-- One receive-to-reply pass of `dns_server_task`'s loop body on a received
datagram `d`, with `apIp` the access-point IPv4 address bytes: `none` when no
reply is sent (datagram shorter than 12 bytes, or the question section ends
beyond the received length or the 64-byte scratch bound), otherwise the bytes
handed to `sendto` (board.c:1344-1432). -/
def dnsProcess (apIp : List Nat) (d : List Nat) : Option (List Nat) :=
  let len := dnsRecvLen d
  if len < 12 then none
  else
    let qe := dnsQuestionEnd d
    if qe ≤ len ∧ qe ≤ 64 then
      some ([(dnsBuf d).getD 0 0, (dnsBuf d).getD 1 0, 0x81, 0x80, 0, 1, 0, 1, 0, 0, 0, 0]
        ++ ((dnsBuf d).drop 12).take (qe - 12)
        ++ dnsAnswerFixed ++ apIp)
    else none

/-- A result of the blocking `recvfrom` call: either a datagram or an error
return (e.g. -1 after the socket is closed from outside). -/
inductive RecvOutcome where
  | recvError
  | datagram (d : List Nat)

/-- What one iteration of the `while (1)` loop does after `recvfrom` returns. -/
inductive DnsLoopStep where
  | continueLoop (reply : Option (List Nat))
  | exitLoop
deriving DecidableEq, Repr

/-- The control flow of one iteration of `dns_server_task`'s receive loop
(board.c:1344-1436): an error return from `recvfrom` satisfies `len < 12` and
falls into the same 1 ms-delay-then-`continue` branch as a short packet; every
path re-enters the loop, and the `close(sock)`/`vTaskDelete` after the loop
(board.c:1439-1440) is unreachable. -/
def dnsLoopIteration (apIp : List Nat) : RecvOutcome → DnsLoopStep
  | RecvOutcome.recvError => DnsLoopStep.continueLoop none
  | RecvOutcome.datagram d => DnsLoopStep.continueLoop (dnsProcess apIp d)

/-- Reading inside the truncation window of a buffer sees the original bytes. -/
lemma getD_take_of_lt {l : List Nat} {n i : Nat} (h : i < n) :
    (l.take n).getD i 0 = l.getD i 0 := by
  simp [List.getD_eq_getElem?_getD, List.getElem?_take_of_lt h]

/-- The first two bytes of a list of length at least 2, as `getD` reads. -/
lemma take_two_eq_getD (l : List Nat) (h : 2 ≤ l.length) :
    l.take 2 = [l.getD 0 0, l.getD 1 0] := by
  cases l with
  | nil => simp at h
  | cons a t =>
    cases t with
    | nil => simp at h
    | cons b t2 => simp [List.getD]

/-- C7: the responder never sends an outbound reply for a malformed query:
a received datagram shorter than 12 bytes, and any query whose computed
question section ends beyond the 64-byte scratch bound or beyond the received
length, produces no reply packet. -/
theorem C7_malformed_query_dropped (apIp d : List Nat)
    (h : d.length < 12 ∨ 64 < dnsQuestionEnd d ∨ dnsRecvLen d < dnsQuestionEnd d) :
    dnsProcess apIp d = none := by
  by_cases hl : dnsRecvLen d < 12
  · simp [dnsProcess, hl]
  · have hdl : ¬ d.length < 12 := by
      unfold dnsRecvLen at hl
      omega
    simp only [dnsProcess, if_neg hl]
    rcases h with h | h | h
    · exact absurd h hdl
    · rw [if_neg]
      rintro ⟨-, h2⟩
      omega
    · rw [if_neg]
      rintro ⟨h1, -⟩
      omega

/-- Witness for C7: a 3-byte datagram is below the 12-byte header minimum and
gets no reply. -/
theorem C7_malformed_query_dropped_witness :
    (([1, 2, 3] : List Nat).length < 12 ∨ 64 < dnsQuestionEnd [1, 2, 3] ∨
      dnsRecvLen [1, 2, 3] < dnsQuestionEnd [1, 2, 3]) ∧
    dnsProcess [192, 168, 4, 1] [1, 2, 3] = none :=
  ⟨Or.inl (by decide), C7_malformed_query_dropped [192, 168, 4, 1] [1, 2, 3]
    (Or.inl (by decide))⟩

/-- C4: whenever the responder answers a query, the reply is exactly the
request's 2-byte transaction id, the fixed header `0x81 0x80` with counts
1/1/0/0, the request's question section (bytes 12 up to the computed question
end) copied verbatim, and one appended answer record `0xC0 0x0C`, type A,
class IN, TTL 10, data length 4, carrying the access-point IPv4 address; in
particular the reply starts with the query's transaction id and ends with the
AP address, whatever the queried name was. -/
theorem C4_reply_format (apIp d r : List Nat) (hap : apIp.length = 4)
    (h : dnsProcess apIp d = some r) :
    r = d.take 2 ++ [0x81, 0x80, 0, 1, 0, 1, 0, 0, 0, 0]
        ++ (d.take (dnsQuestionEnd d)).drop 12
        ++ dnsAnswerFixed ++ apIp ∧
    r.take 2 = d.take 2 ∧
    r.drop (r.length - 4) = apIp := by
  by_cases h1 : dnsRecvLen d < 12
  · simp [dnsProcess, h1] at h
  · simp only [dnsProcess, if_neg h1] at h
    by_cases h2 : dnsQuestionEnd d ≤ dnsRecvLen d ∧ dnsQuestionEnd d ≤ 64
    · simp only [if_pos h2, Option.some.injEq] at h
      obtain ⟨hq1, hq2⟩ := h2
      have hd12 : 12 ≤ d.length := by
        unfold dnsRecvLen at h1
        omega
      have e0 : (dnsBuf d).getD 0 0 = d.getD 0 0 := getD_take_of_lt (by norm_num)
      have e1 : (dnsBuf d).getD 1 0 = d.getD 1 0 := getD_take_of_lt (by norm_num)
      have etake : d.take 2 = [d.getD 0 0, d.getD 1 0] := take_two_eq_getD d (by omega)
      have equest : ((dnsBuf d).drop 12).take (dnsQuestionEnd d - 12) =
          (d.take (dnsQuestionEnd d)).drop 12 := by
        unfold dnsBuf
        rw [List.drop_take 128 12 d, List.take_take, List.drop_take (dnsQuestionEnd d) 12 d]
        congr 1
        omega
      have hr : r = d.take 2 ++ [0x81, 0x80, 0, 1, 0, 1, 0, 0, 0, 0]
          ++ (d.take (dnsQuestionEnd d)).drop 12 ++ dnsAnswerFixed ++ apIp := by
        rw [← h, e0, e1, equest, etake]
        simp
      refine ⟨hr, ?_, ?_⟩
      · rw [hr, etake]
        simp
      · rw [hr]
        have hlen : (d.take 2 ++ [0x81, 0x80, 0, 1, 0, 1, 0, 0, 0, 0]
            ++ (d.take (dnsQuestionEnd d)).drop 12 ++ dnsAnswerFixed ++ apIp).length - 4 =
            (d.take 2 ++ [0x81, 0x80, 0, 1, 0, 1, 0, 0, 0, 0]
              ++ (d.take (dnsQuestionEnd d)).drop 12 ++ dnsAnswerFixed).length := by
          simp [hap]
          omega
        rw [hlen]
        exact List.drop_left _ _
    · simp [if_neg h2] at h

/-- Witness for C4: a concrete well-formed A query for `abc` with transaction
id `0x12 0x34` is answered, and the reply has the stated shape. -/
theorem C4_reply_format_witness :
    ([192, 168, 4, 1] : List Nat).length = 4 ∧
    dnsProcess [192, 168, 4, 1]
        [0x12, 0x34, 1, 0, 0, 1, 0, 0, 0, 0, 0, 0, 3, 97, 98, 99, 0, 0, 1, 0, 1] =
      some ([0x12, 0x34, 0x81, 0x80, 0, 1, 0, 1, 0, 0, 0, 0]
        ++ [3, 97, 98, 99, 0, 0, 1, 0, 1] ++ dnsAnswerFixed ++ [192, 168, 4, 1]) ∧
    (([0x12, 0x34, 0x81, 0x80, 0, 1, 0, 1, 0, 0, 0, 0]
        ++ [3, 97, 98, 99, 0, 0, 1, 0, 1] ++ dnsAnswerFixed ++ [192, 168, 4, 1] : List Nat) =
      ([0x12, 0x34, 1, 0, 0, 1, 0, 0, 0, 0, 0, 0, 3, 97, 98, 99, 0, 0, 1, 0, 1] : List Nat).take 2
        ++ [0x81, 0x80, 0, 1, 0, 1, 0, 0, 0, 0]
        ++ (([0x12, 0x34, 1, 0, 0, 1, 0, 0, 0, 0, 0, 0, 3, 97, 98, 99, 0, 0, 1, 0, 1] :
            List Nat).take
            (dnsQuestionEnd [0x12, 0x34, 1, 0, 0, 1, 0, 0, 0, 0, 0, 0, 3, 97, 98, 99, 0, 0, 1, 0, 1])).drop 12
        ++ dnsAnswerFixed ++ [192, 168, 4, 1] ∧
      (([0x12, 0x34, 0x81, 0x80, 0, 1, 0, 1, 0, 0, 0, 0]
          ++ [3, 97, 98, 99, 0, 0, 1, 0, 1] ++ dnsAnswerFixed ++ [192, 168, 4, 1] : List Nat)).take 2 =
        ([0x12, 0x34, 1, 0, 0, 1, 0, 0, 0, 0, 0, 0, 3, 97, 98, 99, 0, 0, 1, 0, 1] : List Nat).take 2 ∧
      (([0x12, 0x34, 0x81, 0x80, 0, 1, 0, 1, 0, 0, 0, 0]
          ++ [3, 97, 98, 99, 0, 0, 1, 0, 1] ++ dnsAnswerFixed ++ [192, 168, 4, 1] : List Nat)).drop
          ((([0x12, 0x34, 0x81, 0x80, 0, 1, 0, 1, 0, 0, 0, 0]
            ++ [3, 97, 98, 99, 0, 0, 1, 0, 1] ++ dnsAnswerFixed ++ [192, 168, 4, 1] : List Nat)).length - 4) =
        [192, 168, 4, 1]) :=
  ⟨by decide, by decide,
    C4_reply_format [192, 168, 4, 1]
      [0x12, 0x34, 1, 0, 0, 1, 0, 0, 0, 0, 0, 0, 3, 97, 98, 99, 0, 0, 1, 0, 1]
      ([0x12, 0x34, 0x81, 0x80, 0, 1, 0, 1, 0, 0, 0, 0]
        ++ [3, 97, 98, 99, 0, 0, 1, 0, 1] ++ dnsAnswerFixed ++ [192, 168, 4, 1])
      (by decide) (by decide)⟩

/-- C8: the code contradicts the claim (and its own comments): when the
blocking `recvfrom` returns an error — as it does once
`board_wifi_softap_stop` closes the radio under the socket — the
`len < 12` test treats the -1 return exactly like a short packet, delays 1 ms
and re-enters the loop with another `recvfrom`; no iteration outcome is an
exit, so the task never leaves its receive loop. -/
theorem C8_recv_error_is_retried :
    dnsLoopIteration [192, 168, 4, 1] RecvOutcome.recvError =
      DnsLoopStep.continueLoop none ∧
    ∀ rOut : RecvOutcome, dnsLoopIteration [192, 168, 4, 1] rOut ≠ DnsLoopStep.exitLoop := by
  refine ⟨rfl, fun rOut => ?_⟩
  cases rOut <;> simp [dnsLoopIteration]

/-! ## WebSocket session manager (main.c:54-62, 289-351) -/

/-- Session-manager state touched by `websocket_event_handler` and
`reset_connection_timer_cb`: the `first_connection` flag, whether the
single-shot 30 s `reset_connection` timer is currently armed, and the
`WEBSOCKET_CONNECTED_BIT`/`WEBSOCKET_DISCONNECTED_BIT` bits. -/
structure SessionState where
  firstConnection : Bool
  timerArmed : Bool
  wsConnectedBit : Bool
  wsDisconnectedBit : Bool
deriving DecidableEq, Repr

/-- State at process start: `first_connection = true` (main.c:54), timer not
yet created, both bits clear. -/
def bootSessionState : SessionState := ⟨true, false, false, false⟩

/-- Events driving the session manager: the WebSocket connected/disconnected
callbacks, and the expiry of the quiet-period timer (which can only happen
while the timer is armed). -/
inductive SessionEvent where
  | connected
  | disconnected
  | quietTimerFires
deriving DecidableEq, Repr

/-- One event-handler invocation; the `Bool` reports whether the onboarding
side-effect (`play_pcm_by_id(4)`, main.c:299-305) fired.
`connected` plays the sound iff `first_connection` and clears the flag — and
leaves the timer untouched: the `WEBSOCKET_EVENT_CONNECTED` branch never
stops the armed timer.  `disconnected` (re)arms the single-shot timer and
swaps the event bits.  `quietTimerFires` is `reset_connection_timer_cb`
(main.c:57-62): it sets `first_connection` back to true unconditionally. -/
def websocket_event_handler (s : SessionState) : SessionEvent → SessionState × Bool
  | SessionEvent.connected =>
      ({ s with firstConnection := false, wsConnectedBit := true }, s.firstConnection)
  | SessionEvent.disconnected =>
      ({ s with timerArmed := true, wsConnectedBit := false, wsDisconnectedBit := true },
        false)
  | SessionEvent.quietTimerFires =>
      if s.timerArmed then
        ({ s with firstConnection := true, timerArmed := false }, false)
      else (s, false)

/-- Run a list of session events, counting onboarding side-effect firings. -/
def sessionRun (s : SessionState) : List SessionEvent → SessionState × Nat
  | [] => (s, 0)
  | e :: es =>
      let step := websocket_event_handler s e
      let rest := sessionRun step.1 es
      (rest.1, (if step.2 then 1 else 0) + rest.2)

/-- Once `first_connection` is false, any run of connect/disconnect events
without a timer expiry keeps it false and never fires the onboarding
side-effect. -/
lemma sessionRun_no_fire_of_not_first (es : List SessionEvent)
    (hq : SessionEvent.quietTimerFires ∉ es) :
    ∀ s : SessionState, s.firstConnection = false →
      (sessionRun s es).2 = 0 ∧ (sessionRun s es).1.firstConnection = false := by
  induction es with
  | nil => intro s hs; exact ⟨rfl, hs⟩
  | cons e es ih =>
      intro s hs
      have hq1 : e ≠ SessionEvent.quietTimerFires := fun he => hq (by simp [he])
      have hq2 : SessionEvent.quietTimerFires ∉ es := fun he => hq (List.mem_cons_of_mem _ he)
      cases e with
      | connected =>
          have := ih hq2 { s with firstConnection := false, wsConnectedBit := true } rfl
          simpa [sessionRun, websocket_event_handler, hs] using this
      | disconnected =>
          have := ih hq2
            { s with timerArmed := true, wsConnectedBit := false, wsDisconnectedBit := true } hs
          simpa [sessionRun, websocket_event_handler] using this
      | quietTimerFires => exact absurd rfl hq1
/-- A run consisting only of disconnect events preserves a true
`first_connection` flag and fires nothing. -/
lemma sessionRun_disconnects_keep_first (es : List SessionEvent)
    (hd : ∀ e ∈ es, e = SessionEvent.disconnected) :
    ∀ s : SessionState, s.firstConnection = true →
      (sessionRun s es).2 = 0 ∧ (sessionRun s es).1.firstConnection = true := by
  induction es with
  | nil => intro s hs; exact ⟨rfl, hs⟩
  | cons e es ih =>
      intro s hs
      have he : e = SessionEvent.disconnected := hd e (List.mem_cons_self _ _)
      subst he
      have := ih (fun x hx => hd x (List.mem_cons_of_mem _ hx))
        { s with timerArmed := true, wsConnectedBit := false, wsDisconnectedBit := true } hs
      simpa [sessionRun, websocket_event_handler] using this

/-- Splitting a session run over list append. -/
lemma sessionRun_append (xs ys : List SessionEvent) :
    ∀ s : SessionState,
      sessionRun s (xs ++ ys) =
        ((sessionRun (sessionRun s xs).1 ys).1,
          (sessionRun s xs).2 + (sessionRun (sessionRun s xs).1 ys).2) := by
  induction xs with
  | nil => intro s; simp [sessionRun]
  | cons x xs ih =>
      intro s
      simp [sessionRun, ih, Nat.add_assoc]

/-- C5: over any boot-started sequence of session Connected/Disconnected
events in which every Connected after the first happens while the
quiet-period timer has not expired (no timer expiry occurs in the trace), the
onboarding side-effect fires on the very first Connected event and exactly
once in the whole trace — in particular a second Connected inside the quiet
period of a prior Disconnected does not fire it again. -/
theorem C5_onboarding_fires_exactly_once (pre post : List SessionEvent)
    (hpreq : SessionEvent.quietTimerFires ∉ pre)
    (hprec : SessionEvent.connected ∉ pre)
    (hpostq : SessionEvent.quietTimerFires ∉ post) :
    (sessionRun bootSessionState (pre ++ SessionEvent.connected :: post)).2 = 1 ∧
    (sessionRun bootSessionState (pre ++ [SessionEvent.connected])).2 = 1 := by
  have hd : ∀ e ∈ pre, e = SessionEvent.disconnected := by
    intro e he
    cases e with
    | connected => exact absurd he hprec
    | disconnected => rfl
    | quietTimerFires => exact absurd he hpreq
  obtain ⟨hc0, hf1⟩ := sessionRun_disconnects_keep_first pre hd bootSessionState rfl
  have hstep : websocket_event_handler (sessionRun bootSessionState pre).1
      SessionEvent.connected =
      ({ (sessionRun bootSessionState pre).1 with
          firstConnection := false, wsConnectedBit := true }, true) := by
    simp [websocket_event_handler, hf1]
  constructor
  · have hpost := sessionRun_no_fire_of_not_first post hpostq
      { (sessionRun bootSessionState pre).1 with
          firstConnection := false, wsConnectedBit := true } rfl
    rw [sessionRun_append, hc0]
    simp [sessionRun, hstep, hpost.1]
  · rw [sessionRun_append, hc0]
    simp [sessionRun, hstep]

/-- Witness for C5: a disconnect, then the first connect, then a disconnect
and a reconnect inside the quiet period — the side-effect fires exactly once. -/
theorem C5_onboarding_fires_exactly_once_witness :
    SessionEvent.quietTimerFires ∉ [SessionEvent.disconnected] ∧
    SessionEvent.connected ∉ [SessionEvent.disconnected] ∧
    SessionEvent.quietTimerFires ∉ [SessionEvent.disconnected, SessionEvent.connected] ∧
    ((sessionRun bootSessionState ([SessionEvent.disconnected] ++ SessionEvent.connected ::
        [SessionEvent.disconnected, SessionEvent.connected])).2 = 1 ∧
      (sessionRun bootSessionState
        ([SessionEvent.disconnected] ++ [SessionEvent.connected])).2 = 1) :=
  ⟨by decide, by decide, by decide,
    C5_onboarding_fires_exactly_once [SessionEvent.disconnected]
      [SessionEvent.disconnected, SessionEvent.connected]
      (by decide) (by decide) (by decide)⟩

/-- C6: the code contradicts the claim (and its own comment that the flag is
reset when the connection has been lost for over ~30 s): the Connected branch
never stops the single-shot timer armed by a prior Disconnected, so after the
trace Connected, Disconnected, Connected-within-the-quiet-period the timer is
still armed, its expiry resets `first_connection` to true even though the
session reconnected inside the window, and a later Connected plays the
onboarding sound a second time. -/
theorem C6_reconnect_does_not_cancel_reset :
    (sessionRun bootSessionState [SessionEvent.connected, SessionEvent.disconnected,
        SessionEvent.connected]).1.timerArmed = true ∧
    (sessionRun bootSessionState [SessionEvent.connected, SessionEvent.disconnected,
        SessionEvent.connected]).1.firstConnection = false ∧
    (sessionRun bootSessionState [SessionEvent.connected, SessionEvent.disconnected,
        SessionEvent.connected, SessionEvent.quietTimerFires]).1.firstConnection = true ∧
    (sessionRun bootSessionState [SessionEvent.connected, SessionEvent.disconnected,
        SessionEvent.connected, SessionEvent.quietTimerFires, SessionEvent.connected]).2 = 2 := by
  decide

/-! ## Provisioning HTTP set-wifi handler (board.c:1137-1205) -/

/-- `strstr`-style search: the first index of `cstr` at which `pat` occurs as
a contiguous block, `none` when it does not occur. -/
def findSubIdx (pat : List Nat) : List Nat → Option Nat
  | [] => if pat.isEmpty then some 0 else none
  | x :: tl =>
      if pat.isPrefixOf (x :: tl) then some 0
      else (findSubIdx pat tl).map (· + 1)

/-- The handler's only URL decoding: `+` (byte 43) becomes a space (byte 32),
applied to every byte of the extracted field (board.c:1175-1180). -/
def decodePlus (l : List Nat) : List Nat := l.map fun b => if b = 43 then 32 else b

/-- Observable outcome of a `POST /api/set-wifi` request that got past the
body read: the parsed fields as handed to `board_wifi_save_config`, the save
result, and whether the JSON reply reported `"status":"ok"`. -/
structure SetWifiReply where
  ssid : List Nat
  password : List Nat
  save : SaveResult
  respOk : Bool
deriving DecidableEq, Repr

/-- `http_server_set_wifi_config_handler` (board.c:1137-1205).  The body is
read by a single `httpd_req_recv` into a 128-byte buffer with size
`sizeof(buf) - 1 = 127`, so at most the first 127 body bytes are seen; a
0-byte read returns `ESP_FAIL` with no reply (`none`).  The received bytes
are NUL-terminated and parsed with C string functions, so parsing stops at
the first 0 byte.  `ssid` is the text between `"ssid="` and the next `'&'`
(to the end of the string, clipped by `strncpy` to `sizeof(ssid) - 1 = 32`,
when no `'&'` follows); the `'&'`-delimited copy `strncpy(ssid, ssid_start,
ssid_end - ssid_start)` is not length-clipped by the source and is modelled
as the full segment.  `password` is everything after `"password="` clipped to
64.  `+` decodes to space, the pair goes to `board_wifi_save_config`, and the
JSON reply says ok exactly when the save returned `ESP_OK`. -/
def http_server_set_wifi_config_handler (st : NvsStore) (body : List Nat) :
    Option SetWifiReply :=
  let ret := min body.length 127
  if ret = 0 then none
  else
    let cstr := (body.take ret).takeWhile fun b => b ≠ 0
    let ssid :=
      match findSubIdx [115, 115, 105, 100, 61] cstr with
      | none => []
      | some i =>
          let rest := cstr.drop (i + 5)
          match findSubIdx [38] rest with
          | some j => rest.take j
          | none => rest.take 32
    let password :=
      match findSubIdx [112, 97, 115, 115, 119, 111, 114, 100, 61] cstr with
      | none => []
      | some k => (cstr.drop (k + 9)).take 64
    let sv := board_wifi_save_config st (decodePlus ssid) (decodePlus password)
    some ⟨decodePlus ssid, decodePlus password, sv, sv.err == EspErr.ok⟩

/-- C10: the handler reads the body with a single receive into a 127-byte
window, so the parsed ssid and password, the credentials passed to save, the
resulting store, and the HTTP response are identical for any body and for its
127-byte prefix; a longer body is silently truncated, never rejected. -/
theorem C10_body_truncated_at_127 (st : NvsStore) (body : List Nat) :
    http_server_set_wifi_config_handler st body =
      http_server_set_wifi_config_handler st (body.take 127) := by
  have h1 : min (body.take 127).length 127 = min body.length 127 := by
    simp only [List.length_take]
    omega
  have h2 : (body.take 127).take (min body.length 127) = body.take (min body.length 127) := by
    rw [List.take_take]
    congr 1
    omega
  simp only [http_server_set_wifi_config_handler, h1, h2]
